import Mathlib

/-!
Shallow embedding of the core of the Intelligent Incident & Log Management
Platform (`backend/src`): the Z-score anomaly-detection engine
(`incidents/detection.service.ts`), the `CronLock` distributed lease used by
its cron handler, and the log-ingestion entry point
(`ingestion/ingestion.service.ts`).

Modelling conventions:
* JS numbers are embedded as `ℚ` (exact rational arithmetic in place of IEEE
  doubles); timestamps are milliseconds since the epoch, embedded as `ℕ`.
* The Prisma-backed store is an explicit `Store` record threaded through each
  operation; SQL queries become pure functions over its lists.
* `Math.sqrt` only ever feeds comparisons (`zScore > t`, `stdDev === 0`) and a
  fixed-point rendering; those are embedded square-root-free over `ℚ` and
  justified against `Real.sqrt` by bridge lemmas below.
* A fallible protected body (`runDetection` may throw mid-store-operation) is
  embedded as `Store → Except Store Store`, the `error` payload being the
  partially mutated store at the point of the throw.
-/

namespace IncidentPlatform

/-- `LogLevel` enum of `schema.prisma`. -/
inductive LogLevel where
  | DEBUG | INFO | WARN | ERROR | FATAL
deriving DecidableEq

/-- `Severity` enum of `schema.prisma`. -/
inductive Severity where
  | LOW | MEDIUM | HIGH | CRITICAL
deriving DecidableEq

/-- `IncidentStatus` enum of `schema.prisma`. -/
inductive IncidentStatus where
  | OPEN | ACKNOWLEDGED | RESOLVED
deriving DecidableEq

/-- A row of the `Log` table. `timestamp` is in milliseconds since the epoch;
`incident_id` is the nullable back-reference set by the correlating update. -/
structure Log where
  id : ℕ
  service_id : String
  level : LogLevel
  message : String
  timestamp : ℕ
  metadata : List (String × String)
  incident_id : Option ℕ
deriving DecidableEq

/-- A row of the `Incident` table (the fields touched by the detection path). -/
structure Incident where
  id : ℕ
  title : String
  severity : Severity
  status : IncidentStatus
deriving DecidableEq

/-- A row of the `CronLock` table (`id` is its primary key). -/
structure CronLock where
  id : String
  lockedAt : ℕ
  expiry : ℕ
deriving DecidableEq

/-- The persistent store visible to the detection path. -/
structure Store where
  logs : List Log
  incidents : List Incident
  locks : List CronLock
deriving DecidableEq

/-! ## Detection-service constants (`detection.service.ts`, lines 11-18) -/

/-- `Z_SCORE_THRESHOLD = 3.0`. -/
def Z_SCORE_THRESHOLD : ℚ := 3

/-- `MIN_ERROR_COUNT = 5`. -/
def MIN_ERROR_COUNT : ℕ := 5

/-- `BASELINE_WINDOW_MINUTES = 30`. -/
def BASELINE_WINDOW_MINUTES : ℕ := 30

/-- `MIN_BASELINE_BUCKETS = 5`. -/
def MIN_BASELINE_BUCKETS : ℕ := 5

/-! ## Baseline aggregation (the `$queryRaw` of `runDetection`, lines 83-94) -/

/-- `date_trunc('minute', "timestamp")` on a millisecond timestamp: the minute
bucket index. -/
def minuteBucket (t : ℕ) : ℕ := t / 60000

/-- The SQL `WHERE` clause of the baseline query: `level = 'ERROR' AND
"timestamp" > NOW() - INTERVAL '30 minutes'`. -/
def inBaselineWindow (now : ℕ) (l : Log) : Bool :=
  l.level == LogLevel.ERROR && decide (now - BASELINE_WINDOW_MINUTES * 60000 < l.timestamp)

/-- Insert into a descending-sorted list (used to embed `ORDER BY time_bucket
DESC`). -/
def insertDesc (x : ℕ) : List ℕ → List ℕ
  | [] => [x]
  | y :: ys => if y ≤ x then x :: y :: ys else y :: insertDesc x ys

/-- Sort a list of bucket indices in descending order. -/
def sortDesc (l : List ℕ) : List ℕ := l.foldr insertDesc []

/-- The baseline query: per-minute `ERROR` counts over the trailing 30-minute
window, one `(time_bucket, loading)` pair per minute that has at least one
matching row (`GROUP BY` yields no empty buckets), ordered descending. -/
def baselineMetrics (now : ℕ) (logs : List Log) : List (ℕ × ℕ) :=
  let window := logs.filter (inBaselineWindow now)
  let buckets := sortDesc (window.map (fun l => minuteBucket l.timestamp)).dedup
  buckets.map (fun b => (b, (window.filter (fun l => minuteBucket l.timestamp == b)).length))

/-! ## Statistics (`runDetection`, lines 104-107) -/

/-- `values.reduce((a, b) => a + b, 0) / values.length`. -/
def listMean (values : List ℚ) : ℚ := values.sum / values.length

/-- `values.reduce((a, b) => a + Math.pow(b - mean, 2), 0) / values.length` —
the population (divide-by-N) variance. -/
def listVariance (values : List ℚ) : ℚ :=
  (values.map (fun b => (b - listMean values) ^ 2)).sum / values.length

/-- The `loading` column of the baseline buckets, as JS numbers
(`baselineMetrics.map((m) => Number(m.loading))`). -/
def baselineValues (now : ℕ) (logs : List Log) : List ℚ :=
  (baselineMetrics now logs).map (fun m => (m.2 : ℚ))

/-! ## Current measurement (`runDetection`, lines 110-117) -/

/-- The shared filter of the `log.count` and `log.updateMany` calls:
`level = 'ERROR' AND timestamp >= oneMinuteAgo AND incident_id IS NULL`. -/
def isUncorrelatedRecentError (now : ℕ) (l : Log) : Bool :=
  l.level == LogLevel.ERROR && decide (now - 60000 ≤ l.timestamp) && l.incident_id == none

/-- `currentErrorCount`: the rolling-60-second count of uncorrelated `ERROR`
rows. -/
def currentErrorCount (now : ℕ) (logs : List Log) : ℕ :=
  (logs.filter (isUncorrelatedRecentError now)).length

/-! ## Z-score (`runDetection`, lines 120-127)

The source computes `stdDev = Math.sqrt(variance)` and then only ever uses it
in the test `stdDev === 0` and in the comparisons `zScore > 3`, `zScore > 5`
(plus the rendering inside the incident title).  Since `variance ≥ 0`
(`listVariance_nonneg`), `stdDev === 0` holds exactly when `variance = 0`
(`Real.sqrt_eq_zero'`), and for `variance > 0` and a threshold `t ≥ 0` the
comparison `(current - mean) / sqrt variance > t` holds exactly when
`current - mean > 0 ∧ t² * variance < (current - mean)²`
(lemma `zScoreGt_eq_real` below).  `zScoreGt` embeds the comparisons in that
square-root-free form. -/

/-- The cold-start sentinel of lines 121-124: when `stdDev === 0`,
`zScore = currentErrorCount > mean ? 999 : 0`. -/
def sentinelZ (mean current : ℚ) : ℚ := if mean < current then 999 else 0

/-- Decides `zScore > t` for the z-score of lines 120-127: the sentinel value
when the standard deviation is zero, `(current - mean) / stdDev` otherwise. -/
def zScoreGt (mean varnce current t : ℚ) : Bool :=
  if varnce = 0 then decide (t < sentinelZ mean current)
  else decide (0 < current - mean ∧ t ^ 2 * varnce < (current - mean) ^ 2)

/-! ## Incident creation (`runDetection`, lines 141-146) -/

/-- `zScore > 5 ? Severity.CRITICAL : Severity.HIGH` (line 141). -/
def detectionSeverity (mean varnce current : ℚ) : Severity :=
  if zScoreGt mean varnce current 5 then Severity.CRITICAL else Severity.HIGH

/-- Zero-padded two-digit rendering of a hundredths remainder. -/
def padHundredths (n : ℕ) : String :=
  if n < 10 then "0" ++ toString n else toString n

/-- Renders `h` hundredths as a fixed-two-decimal string (`316 ↦ "3.16"`). -/
def fixed2OfHundredths (h : ℕ) : String :=
  toString (h / 100) ++ "." ++ padHundredths (h % 100)

/-- `q.toFixed(2)` for an exact rational `q`: round half-up to hundredths. -/
def ratToFixed2 (q : ℚ) : String :=
  if q < 0 then "-" ++ fixed2OfHundredths (-(100 * q) + 1 / 2).floor.toNat
  else fixed2OfHundredths (100 * q + 1 / 2).floor.toNat

/-- `⌊200 * (c / √v)⌋` for `c ≥ 0`, `v > 0`, computed exactly over `ℚ`: since
`⌊√x⌋ = Nat.sqrt ⌊x⌋` for `x ≥ 0`, this is `Nat.sqrt ⌊(200c)² / v⌋`
(justified by `floorTwiceHundredths_eq_floor` below). -/
def floorTwiceHundredths (c v : ℚ) : ℕ :=
  Nat.sqrt ((200 * c) ^ 2 / v).floor.toNat

/-- `zScore.toFixed(2)`, the z-score rendering embedded in the incident title
(line 143), computed in exact real arithmetic.  For the `stdDev > 0` branch
the z-score is `(current - mean) / √variance`; rounding half-up its
hundredths is `⌊(⌊200z⌋ + 1) / 2⌋`.  The `current < mean` sub-branch (a
negative z-score, which the anomaly branch of the source can never reach
since there `zScore > 3`) is rendered through the same magnitude computation. -/
def zFixed2 (mean varnce current : ℚ) : String :=
  if varnce = 0 then ratToFixed2 (sentinelZ mean current)
  else if current < mean then
    "-" ++ fixed2OfHundredths ((floorTwiceHundredths (mean - current) varnce + 1) / 2)
  else fixed2OfHundredths ((floorTwiceHundredths (current - mean) varnce + 1) / 2)

/-- The title of line 143: `Anomaly Detected: Error Spike (Z-Score:
${zScore.toFixed(2)}, Count: ${currentErrorCount})`. -/
def incidentTitle (mean varnce : ℚ) (current : ℕ) : String :=
  "Anomaly Detected: Error Spike (Z-Score: " ++ zFixed2 mean varnce (current : ℚ) ++
    ", Count: " ++ toString current ++ ")"

/-- Fresh identifier for `incidentsService.create` (Prisma assigns a fresh
primary key on insert). -/
def nextIncidentId (s : Store) : ℕ := s.incidents.length

/-- The correlating `log.updateMany` of lines 151-158: set `incident_id` on
every row matching the same filter as the count query. -/
def correlateLogs (now : ℕ) (incidentId : ℕ) (logs : List Log) : List Log :=
  logs.map (fun l =>
    if isUncorrelatedRecentError now l then { l with incident_id := some incidentId } else l)

/-! ## `runDetection` (lines 81-160) -/

/-- `runDetection`: baseline fetch, warm-up guard, statistics, current
measurement, dual-threshold decision, and — on anomaly — incident creation
(via `IncidentsService.create`, which is a bare `prisma.incident.create`)
followed by the correlating update.
The source's local bindings `values`, `mean`, `variance`, `currentErrorCount`
appear inlined as `baselineValues`/`listMean`/`listVariance`/
`currentErrorCount` applications. -/
def runDetection (now : ℕ) (s : Store) : Store :=
  if (baselineMetrics now s.logs).length < MIN_BASELINE_BUCKETS then s
  else if zScoreGt (listMean (baselineValues now s.logs))
      (listVariance (baselineValues now s.logs))
      (currentErrorCount now s.logs : ℚ) Z_SCORE_THRESHOLD
      && decide (MIN_ERROR_COUNT < currentErrorCount now s.logs) then
    { s with
        incidents := s.incidents ++
          [{ id := nextIncidentId s
             title := incidentTitle (listMean (baselineValues now s.logs))
               (listVariance (baselineValues now s.logs)) (currentErrorCount now s.logs)
             severity := detectionSeverity (listMean (baselineValues now s.logs))
               (listVariance (baselineValues now s.logs)) (currentErrorCount now s.logs : ℚ)
             status := IncidentStatus.OPEN }]
        logs := correlateLogs now (nextIncidentId s) s.logs }
  else s

/-- The dual-threshold decision of line 135, including the warm-up guard in
front of it: `true` exactly when this tick reaches the scoring step and the
anomaly branch fires. -/
def detectionFires (now : ℕ) (s : Store) : Bool :=
  !decide ((baselineMetrics now s.logs).length < MIN_BASELINE_BUCKETS)
    && zScoreGt (listMean (baselineValues now s.logs))
        (listVariance (baselineValues now s.logs))
        ((currentErrorCount now s.logs : ℕ) : ℚ) Z_SCORE_THRESHOLD
    && decide (MIN_ERROR_COUNT < currentErrorCount now s.logs)

/-! ## Distributed lease lock (`handleCron`, lines 26-64) -/

/-- `const lockId = 'detection_service_lock'` (line 27). -/
def lockId : String := "detection_service_lock"

/-- `prisma.cronLock.findUnique({ where: { id: lockId } })`. -/
def findLock (s : Store) : Option CronLock :=
  s.locks.find? (fun l => l.id == lockId)

/-- `prisma.cronLock.delete({ where: { id: lockId } })` (its failure is
swallowed by `.catch(() => {})`). -/
def deleteLock (s : Store) : Store :=
  { s with locks := s.locks.filter (fun l => !(l.id == lockId)) }

/-- `prisma.cronLock.create(...)` (lines 46-52): the store's atomic
conditional insert.  `id` is the primary key, so creation fails —
`none`, the caught uniqueness conflict — exactly when a row with the same
`id` already exists; otherwise the new row (`lockedAt = now`,
`expiry = now + 9000`) is inserted. -/
def tryCreateLock (now : ℕ) (s : Store) : Option Store :=
  if s.locks.any (fun l => l.id == lockId) then none
  else some { s with locks := s.locks ++ [⟨lockId, now, now + 9000⟩] }

/-- The tail of `handleCron` from the `try create` on (lines 45-63): attempt
the conditional insert; on conflict return with no work done (the `catch`
branch); on success run the protected body and — per the `finally` — delete
the lease row on both the normal and the throwing exit of the body.  The
`Bool` component instruments whether the protected body was invoked; the
`Store` component is the resulting store. -/
def acquireAndRun (now : ℕ) (detect : Store → Except Store Store) (s : Store) :
    Bool × Store :=
  match tryCreateLock now s with
  | none => (false, s)
  | some s2 =>
    match detect s2 with
    | Except.ok s3 => (true, deleteLock s3)
    | Except.error s3 => (true, deleteLock s3)

/-- `handleCron` (lines 26-64): look up the lease row; if one exists and
`expiry > now`, skip the cycle; if it exists but is stale, delete it; then
acquire-and-run. -/
def handleCron (now : ℕ) (detect : Store → Except Store Store) (s : Store) :
    Bool × Store :=
  match findLock s with
  | some existingLock =>
    if now < existingLock.expiry then (false, s)
    else acquireAndRun now detect (deleteLock s)
  | none => acquireAndRun now detect s

/-- `handleCron` with its actual, non-throwing protected body
`this.runDetection()`. -/
def handleCronRun (now : ℕ) (s : Store) : Bool × Store :=
  handleCron now (fun t => Except.ok (runDetection now t)) s

/-! ## Ingestion (`ingestion.service.ts`, lines 12-29) -/

/-- The `CreateLogDto` accepted by `processLog` (`metadata` is optional;
`level` is cast, not validated, so it is embedded as the enum directly). -/
structure CreateLogDto where
  service_id : String
  level : LogLevel
  message : String
  timestamp : ℕ
  metadata : Option (List (String × String))
deriving DecidableEq

/-- The store as seen by the ingestion path: the `Log` table plus a flag
modelling whether the underlying insert currently fails (store
unavailable). -/
structure IngestStore where
  logs : List Log
  createFails : Bool
deriving DecidableEq

/-- `prisma.log.create`: assigns a fresh id and persists the row in the same
awaited call, or throws when the store is unavailable. -/
def logCreate (st : IngestStore) (service_id : String) (level : LogLevel)
    (message : String) (timestamp : ℕ) (metadata : List (String × String)) :
    Except Unit (IngestStore × Log) :=
  if st.createFails then Except.error ()
  else
    let log : Log :=
      { id := st.logs.length, service_id := service_id, level := level,
        message := message, timestamp := timestamp, metadata := metadata,
        incident_id := none }
    Except.ok ({ st with logs := st.logs ++ [log] }, log)

/-- `processLog` (lines 12-29): synchronously `await` a single-row
`prisma.log.create` and return the persisted row; on store failure, log and
**rethrow** the error to the caller.  (There is no in-memory buffer in this
code: the write is awaited on the request path and its failure is
producer-visible.) -/
def processLog (dto : CreateLogDto) (st : IngestStore) :
    Except Unit (IngestStore × Log) :=
  match logCreate st dto.service_id dto.level dto.message dto.timestamp
      (dto.metadata.getD []) with
  | Except.ok r => Except.ok r
  | Except.error e => Except.error e

/-! ## Bridge lemmas: the `ℚ` embedding against real square roots -/

/-- The population variance is nonnegative, so `stdDev = √variance` is a real
number and — see `sqrt_eq_zero_iff_of_nonneg` — the source's `stdDev === 0`
test holds exactly when the variance is zero. -/
theorem listVariance_nonneg (values : List ℚ) : 0 ≤ listVariance values := by
  unfold listVariance
  apply div_nonneg
  · apply List.sum_nonneg
    intro x hx
    simp only [List.mem_map] at hx
    obtain ⟨b, -, rfl⟩ := hx
    positivity
  · positivity

/-- For a nonnegative radicand, `Math.sqrt v === 0` exactly when `v = 0`. -/
theorem sqrt_eq_zero_iff_of_nonneg (v : ℚ) (hv : 0 ≤ v) :
    Real.sqrt (v : ℝ) = 0 ↔ v = 0 := by
  rw [Real.sqrt_eq_zero']
  constructor
  · intro h
    exact_mod_cast le_antisymm (by exact_mod_cast h) hv
  · intro h
    simp [h]

/-- `zScoreGt` decides exactly the source's comparison
`(current - mean) / stdDev > t` in the `stdDev > 0` branch, for the
nonnegative thresholds (`3` and `5`) it is applied to. -/
theorem zScoreGt_eq_real (m v c t : ℚ) (hv : 0 < v) (ht : 0 ≤ t) :
    zScoreGt m v c t = true ↔
      (t : ℝ) < ((c : ℝ) - (m : ℝ)) / Real.sqrt (v : ℝ) := by
  have hv' : (0 : ℝ) < (v : ℝ) := by exact_mod_cast hv
  have ht' : (0 : ℝ) ≤ (t : ℝ) := by exact_mod_cast ht
  have hs : 0 < Real.sqrt (v : ℝ) := Real.sqrt_pos.mpr hv'
  have hs2 : Real.sqrt (v : ℝ) ^ 2 = (v : ℝ) := Real.sq_sqrt hv'.le
  unfold zScoreGt
  rw [if_neg hv.ne', decide_eq_true_eq, lt_div_iff₀ hs]
  constructor
  · rintro ⟨h1, h2⟩
    have h1' : (0 : ℝ) < (c : ℝ) - (m : ℝ) := by exact_mod_cast h1
    have h2' : (t : ℝ) ^ 2 * (v : ℝ) < ((c : ℝ) - (m : ℝ)) ^ 2 := by
      exact_mod_cast h2
    have hsq : ((t : ℝ) * Real.sqrt (v : ℝ)) ^ 2 < ((c : ℝ) - (m : ℝ)) ^ 2 := by
      rw [mul_pow, hs2]; exact h2'
    exact lt_of_pow_lt_pow_left₀ 2 h1'.le hsq
  · intro h
    have h0 : (0 : ℝ) < (c : ℝ) - (m : ℝ) :=
      lt_of_le_of_lt (mul_nonneg ht' hs.le) h
    have h1 : (0 : ℚ) < c - m := by exact_mod_cast h0
    refine ⟨h1, ?_⟩
    have hsq : ((t : ℝ) * Real.sqrt (v : ℝ)) ^ 2 < ((c : ℝ) - (m : ℝ)) ^ 2 :=
      pow_lt_pow_left₀ h (mul_nonneg ht' hs.le) (by norm_num)
    rw [mul_pow, hs2] at hsq
    exact_mod_cast hsq

/-- `floorTwiceHundredths c v` is exactly `⌊200 * (c / √v)⌋`: the `Nat.sqrt`
computation used by `zFixed2` brackets the real value between `k` and
`k + 1`. -/
theorem floorTwiceHundredths_eq_floor (c v : ℚ) (hc : 0 ≤ c) (hv : 0 < v) :
    (floorTwiceHundredths c v : ℝ) ≤ 200 * ((c : ℝ) / Real.sqrt (v : ℝ)) ∧
      200 * ((c : ℝ) / Real.sqrt (v : ℝ)) < floorTwiceHundredths c v + 1 := by
  have hv' : (0 : ℝ) < (v : ℝ) := by exact_mod_cast hv
  have hs : 0 < Real.sqrt (v : ℝ) := Real.sqrt_pos.mpr hv'
  have hs2 : Real.sqrt (v : ℝ) ^ 2 = (v : ℝ) := Real.sq_sqrt hv'.le
  set T : ℚ := (200 * c) ^ 2 / v with hT
  have hT0 : 0 ≤ T := by positivity
  have hfl0 : 0 ≤ T.floor := Rat.le_floor.mpr (by exact_mod_cast hT0)
  have htofl : ((T.floor.toNat : ℚ)) = ((T.floor : ℚ)) := by
    exact_mod_cast Int.toNat_of_nonneg hfl0
  have hNT : ((T.floor.toNat : ℚ)) ≤ T := by
    rw [htofl]; exact Rat.le_floor.mp le_rfl
  have hTN : T < ((T.floor.toNat : ℚ)) + 1 := by
    rw [htofl]
    by_contra hcon
    push_neg at hcon
    have : T.floor + 1 ≤ T.floor := Rat.le_floor.mpr (by push_cast; linarith)
    omega
  set N : ℕ := T.floor.toNat with hN
  set k : ℕ := Nat.sqrt N with hk
  have hkdef : floorTwiceHundredths c v = k := rfl
  have hk2 : ((k : ℚ)) ^ 2 ≤ T := by
    refine le_trans ?_ hNT
    exact_mod_cast Nat.sqrt_le' N
  have hk3 : T < ((k : ℚ) + 1) ^ 2 := by
    refine lt_of_lt_of_le hTN ?_
    exact_mod_cast Nat.succ_le_of_lt (Nat.lt_succ_sqrt' N)
  have hx0 : (0 : ℝ) ≤ 200 * ((c : ℝ) / Real.sqrt (v : ℝ)) := by positivity
  have hx2 : (200 * ((c : ℝ) / Real.sqrt (v : ℝ))) ^ 2 = (T : ℝ) := by
    rw [hT]
    push_cast
    rw [mul_pow, div_pow, hs2]
    ring
  rw [hkdef]
  constructor
  · have h2 : (k : ℝ) ^ 2 ≤ (200 * ((c : ℝ) / Real.sqrt (v : ℝ))) ^ 2 := by
      rw [hx2]; exact_mod_cast hk2
    exact le_of_pow_le_pow_left₀ (by norm_num) hx0 h2
  · have h2 : (200 * ((c : ℝ) / Real.sqrt (v : ℝ))) ^ 2 < ((k : ℝ) + 1) ^ 2 := by
      rw [hx2]; exact_mod_cast hk3
    exact lt_of_pow_lt_pow_left₀ 2 (by positivity) h2

/-! ## Supporting lemmas about the correlating update -/

/-- The per-row function applied by `correlateLogs`. -/
def correlateOne (now i : ℕ) (l : Log) : Log :=
  if isUncorrelatedRecentError now l then { l with incident_id := some i } else l

theorem correlateLogs_eq_map (now i : ℕ) (logs : List Log) :
    correlateLogs now i logs = logs.map (correlateOne now i) := rfl

theorem correlateOne_level (now i : ℕ) (l : Log) :
    (correlateOne now i l).level = l.level := by
  unfold correlateOne; split <;> rfl

theorem correlateOne_timestamp (now i : ℕ) (l : Log) :
    (correlateOne now i l).timestamp = l.timestamp := by
  unfold correlateOne; split <;> rfl

/-- The correlating update never satisfies the count filter afterwards: it
either stamps a row (so `incident_id` is no longer null) or leaves a row that
already failed the filter. -/
theorem correlateOne_not_uncorrelated (now i : ℕ) (l : Log) :
    isUncorrelatedRecentError now (correlateOne now i l) = false := by
  unfold correlateOne
  by_cases h : isUncorrelatedRecentError now l
  · rw [if_pos h]
    unfold isUncorrelatedRecentError at h ⊢
    simp only [Bool.and_eq_false_iff]
    right
    rfl
  · rw [if_neg h]
    exact Bool.not_eq_true _ ▸ (by simpa using h)

/-- After the correlating update, the rolling-60-second uncorrelated-`ERROR`
count is exactly zero. -/
theorem currentErrorCount_correlateLogs (now i : ℕ) (logs : List Log) :
    currentErrorCount now (correlateLogs now i logs) = 0 := by
  unfold currentErrorCount
  rw [correlateLogs_eq_map, List.length_eq_zero]
  rw [List.filter_eq_nil_iff]
  intro a ha
  simp only [List.mem_map] at ha
  obtain ⟨b, -, rfl⟩ := ha
  simp [correlateOne_not_uncorrelated]

/-- The baseline aggregation reads only `level` and `timestamp`, which the
correlating update preserves, so the baseline buckets are unchanged by it. -/
theorem baselineMetrics_correlateLogs (now i : ℕ) (logs : List Log) :
    baselineMetrics now (correlateLogs now i logs) = baselineMetrics now logs := by
  unfold baselineMetrics
  dsimp only
  rw [correlateLogs_eq_map]
  have hwin : (logs.map (correlateOne now i)).filter (inBaselineWindow now) =
      (logs.filter (inBaselineWindow now)).map (correlateOne now i) := by
    rw [List.filter_map]
    congr 1
    apply List.filter_congr
    intro a _
    show inBaselineWindow now (correlateOne now i a) = inBaselineWindow now a
    unfold inBaselineWindow
    rw [correlateOne_level, correlateOne_timestamp]
  rw [hwin]
  have hbuckets : ((logs.filter (inBaselineWindow now)).map (correlateOne now i)).map
        (fun l => minuteBucket l.timestamp) =
      (logs.filter (inBaselineWindow now)).map (fun l => minuteBucket l.timestamp) := by
    rw [List.map_map]
    apply List.map_congr_left
    intro a _
    show minuteBucket (correlateOne now i a).timestamp = minuteBucket a.timestamp
    rw [correlateOne_timestamp]
  rw [hbuckets]
  apply List.map_congr_left
  intro b _
  have hcnt : ((logs.filter (inBaselineWindow now)).map (correlateOne now i)).filter
        (fun l => minuteBucket l.timestamp == b) =
      ((logs.filter (inBaselineWindow now)).filter
        (fun l => minuteBucket l.timestamp == b)).map (correlateOne now i) := by
    rw [List.filter_map]
    congr 1
    apply List.filter_congr
    intro a _
    show (minuteBucket (correlateOne now i a).timestamp == b) =
      (minuteBucket a.timestamp == b)
    rw [correlateOne_timestamp]
  rw [hcnt, List.length_map]

/-! ## Claim theorems: detection engine -/

/-- **C9** Warm-up guard frame property: whenever the baseline query returns
fewer than 5 per-minute buckets, `runDetection` terminates early and the
detection tick performs no store writes at all — the store is returned
unchanged, so no incident is created and no log record's `incident_id` is
modified. -/
theorem warmup_guard_no_writes (now : ℕ) (s : Store)
    (h : (baselineMetrics now s.logs).length < MIN_BASELINE_BUCKETS) :
    runDetection now s = s := by
  unfold runDetection
  rw [if_pos h]

/-- **C1** Dual-threshold decision: on every tick that reaches the scoring
step (the warm-up guard passed), an incident is created iff both `Z > 3.0`
and the 60-second uncorrelated `ERROR` count is strictly greater than 5;
in particular a current count of 1 yields no anomaly (and no store change)
no matter how large the z-score is. -/
theorem runDetection_dual_threshold (now : ℕ) (s : Store)
    (h : ¬ (baselineMetrics now s.logs).length < MIN_BASELINE_BUCKETS) :
    ((runDetection now s).incidents.length = s.incidents.length + 1 ↔
      (zScoreGt (listMean (baselineValues now s.logs))
          (listVariance (baselineValues now s.logs))
          ((currentErrorCount now s.logs : ℕ) : ℚ) Z_SCORE_THRESHOLD = true ∧
        MIN_ERROR_COUNT < currentErrorCount now s.logs)) ∧
    (currentErrorCount now s.logs = 1 → runDetection now s = s) := by
  constructor
  · unfold runDetection
    rw [if_neg h]
    by_cases hc : (zScoreGt (listMean (baselineValues now s.logs))
        (listVariance (baselineValues now s.logs))
        ((currentErrorCount now s.logs : ℕ) : ℚ) Z_SCORE_THRESHOLD
        && decide (MIN_ERROR_COUNT < currentErrorCount now s.logs)) = true
    · rw [if_pos hc]
      have hrhs := Bool.and_eq_true_iff.mp hc
      refine iff_of_true ?_ ⟨hrhs.1, of_decide_eq_true hrhs.2⟩
      simp
    · rw [if_neg hc]
      refine iff_of_false (by omega) ?_
      rintro ⟨hz, hm⟩
      exact hc (Bool.and_eq_true_iff.mpr ⟨hz, decide_eq_true hm⟩)
  · intro h1
    unfold runDetection
    rw [if_neg h]
    have hdec : decide (MIN_ERROR_COUNT < currentErrorCount now s.logs) = false := by
      rw [h1]; decide
    rw [hdec, Bool.and_false, if_neg (by simp)]

/-- **C2** Idempotence of detection: if a tick declares an anomaly (so the
correlating update ran), the uncorrelated count of the 60-second window in
the resulting store is exactly zero, and an immediate re-run of the same tick
on the unchanged stored data is a no-op — no second incident. -/
theorem runDetection_idempotent_after_correlation (now : ℕ) (s : Store)
    (h : detectionFires now s = true) :
    currentErrorCount now (runDetection now s).logs = 0 ∧
      runDetection now (runDetection now s) = runDetection now s := by
  unfold detectionFires at h
  have h3 := Bool.and_eq_true_iff.mp h
  have h12 := Bool.and_eq_true_iff.mp h3.1
  have hwarm : ¬ (baselineMetrics now s.logs).length < MIN_BASELINE_BUCKETS := by
    have := h12.1
    simpa using this
  have hcond : (zScoreGt (listMean (baselineValues now s.logs))
      (listVariance (baselineValues now s.logs))
      ((currentErrorCount now s.logs : ℕ) : ℚ) Z_SCORE_THRESHOLD
      && decide (MIN_ERROR_COUNT < currentErrorCount now s.logs)) = true :=
    Bool.and_eq_true_iff.mpr ⟨h12.2, h3.2⟩
  have hrun : runDetection now s =
      { s with
          incidents := s.incidents ++
            [{ id := nextIncidentId s
               title := incidentTitle (listMean (baselineValues now s.logs))
                 (listVariance (baselineValues now s.logs)) (currentErrorCount now s.logs)
               severity := detectionSeverity (listMean (baselineValues now s.logs))
                 (listVariance (baselineValues now s.logs))
                 ((currentErrorCount now s.logs : ℕ) : ℚ)
               status := IncidentStatus.OPEN }]
          logs := correlateLogs now (nextIncidentId s) s.logs } := by
    unfold runDetection
    rw [if_neg hwarm, if_pos hcond]
  constructor
  · rw [hrun]
    exact currentErrorCount_correlateLogs now (nextIncidentId s) s.logs
  · rw [hrun]
    unfold runDetection
    simp only [baselineMetrics_correlateLogs, currentErrorCount_correlateLogs]
    rw [if_neg hwarm]
    have : decide (MIN_ERROR_COUNT < 0) = false := by decide
    rw [this, Bool.and_false, if_neg (by simp)]

/-- **C10** Every incident created by the detection engine's anomaly branch
has status `OPEN` and severity `HIGH` or `CRITICAL` (never `LOW`, `MEDIUM`,
`ACKNOWLEDGED` or `RESOLVED` at creation), and its title embeds both the
rendered z-score and the current error count. -/
theorem created_incident_invariant (now : ℕ) (s : Store) (inc : Incident)
    (hmem : inc ∈ (runDetection now s).incidents) (hnew : inc ∉ s.incidents) :
    inc.status = IncidentStatus.OPEN ∧
      (inc.severity = Severity.HIGH ∨ inc.severity = Severity.CRITICAL) ∧
      ∃ pre mid post : String,
        inc.title = pre ++ zFixed2 (listMean (baselineValues now s.logs))
            (listVariance (baselineValues now s.logs))
            ((currentErrorCount now s.logs : ℕ) : ℚ) ++ mid ++
          toString (currentErrorCount now s.logs) ++ post := by
  unfold runDetection at hmem
  by_cases h1 : (baselineMetrics now s.logs).length < MIN_BASELINE_BUCKETS
  · rw [if_pos h1] at hmem
    exact absurd hmem hnew
  · rw [if_neg h1] at hmem
    by_cases h2 : (zScoreGt (listMean (baselineValues now s.logs))
        (listVariance (baselineValues now s.logs))
        ((currentErrorCount now s.logs : ℕ) : ℚ) Z_SCORE_THRESHOLD
        && decide (MIN_ERROR_COUNT < currentErrorCount now s.logs)) = true
    · rw [if_pos h2] at hmem
      simp only [List.mem_append, List.mem_singleton] at hmem
      rcases hmem with hold | rfl
      · exact absurd hold hnew
      · refine ⟨rfl, ?_, ?_⟩
        · show (detectionSeverity _ _ _ = Severity.HIGH ∨
            detectionSeverity _ _ _ = Severity.CRITICAL)
          unfold detectionSeverity
          split
          · right; rfl
          · left; rfl
        · exact ⟨"Anomaly Detected: Error Spike (Z-Score: ", ", Count: ", ")", rfl⟩
    · rw [if_neg h2] at hmem
      exact absurd hmem hnew

/-- **C7** Cold-start sentinel: when the population standard deviation of
the baseline buckets is 0 the z-score is the sentinel `999` if the current
count exceeds the mean and `0` otherwise; for baseline buckets
`[0,0,0,0,0]` and current count `6` the sentinel path is taken (`Z = 999`),
the dual-threshold decision fires, and the `Z > 5` rule yields `CRITICAL`
severity. -/
theorem cold_start_sentinel :
    (∀ mean current : ℚ,
        (mean < current → sentinelZ mean current = 999) ∧
        (current ≤ mean → sentinelZ mean current = 0)) ∧
    listVariance [0, 0, 0, 0, 0] = 0 ∧
    sentinelZ (listMean [0, 0, 0, 0, 0]) 6 = 999 ∧
    (zScoreGt (listMean [0, 0, 0, 0, 0]) (listVariance [0, 0, 0, 0, 0]) 6
        Z_SCORE_THRESHOLD && decide ((MIN_ERROR_COUNT : ℕ) < 6)) = true ∧
    detectionSeverity (listMean [0, 0, 0, 0, 0]) (listVariance [0, 0, 0, 0, 0]) 6 =
      Severity.CRITICAL := by
  refine ⟨?_, ?_, ?_, ?_, ?_⟩
  · intro mean current
    constructor
    · intro h; unfold sentinelZ; rw [if_pos h]
    · intro h; unfold sentinelZ; rw [if_neg (not_lt.mpr h)]
  · norm_num [listVariance, listMean]
  · norm_num [sentinelZ, listMean]
  · norm_num [zScoreGt, sentinelZ, listMean, listVariance, Z_SCORE_THRESHOLD,
      MIN_ERROR_COUNT]
  · norm_num [detectionSeverity, zScoreGt, sentinelZ, listMean, listVariance]

/-- **C8** Statistics instance: for baseline buckets `[2,3,2,4,3]` the engine
computes μ = 2.8 and population variance 0.56 (so σ = √0.56 ≈ 0.748); with
current count 10 the z-score `(10 − 2.8)/σ ≈ 9.63` exceeds 5, so an anomaly
is declared with `CRITICAL` severity. -/
theorem statistics_zscore_instance :
    listMean [2, 3, 2, 4, 3] = 2.8 ∧
    listVariance [2, 3, 2, 4, 3] = 0.56 ∧
    |Real.sqrt ((listVariance [2, 3, 2, 4, 3] : ℚ) : ℝ) - 0.748| < 0.001 ∧
    |((10 : ℝ) - ((listMean [2, 3, 2, 4, 3] : ℚ) : ℝ)) /
        Real.sqrt ((listVariance [2, 3, 2, 4, 3] : ℚ) : ℝ) - 9.63| < 0.01 ∧
    (zScoreGt (listMean [2, 3, 2, 4, 3]) (listVariance [2, 3, 2, 4, 3]) 10
        Z_SCORE_THRESHOLD && decide ((MIN_ERROR_COUNT : ℕ) < 10)) = true ∧
    zScoreGt (listMean [2, 3, 2, 4, 3]) (listVariance [2, 3, 2, 4, 3]) 10 5 = true ∧
    detectionSeverity (listMean [2, 3, 2, 4, 3]) (listVariance [2, 3, 2, 4, 3]) 10 =
      Severity.CRITICAL := by
  have hm : listMean [2, 3, 2, 4, 3] = 2.8 := by norm_num [listMean]
  have hv : listVariance [2, 3, 2, 4, 3] = 0.56 := by
    norm_num [listVariance, listMean]
  have hcast : ((listVariance [2, 3, 2, 4, 3] : ℚ) : ℝ) = 0.56 := by
    rw [hv]; norm_num
  have hmcast : ((listMean [2, 3, 2, 4, 3] : ℚ) : ℝ) = 2.8 := by
    rw [hm]; norm_num
  have hs1 : (0.7483 : ℝ) < Real.sqrt 0.56 := by
    rw [Real.lt_sqrt (by norm_num)]; norm_num
  have hs2 : Real.sqrt (0.56 : ℝ) < 0.74834 := by
    rw [Real.sqrt_lt' (by norm_num)]; norm_num
  have hspos : (0 : ℝ) < Real.sqrt 0.56 := lt_trans (by norm_num) hs1
  refine ⟨hm, hv, ?_, ?_, ?_, ?_, ?_⟩
  · rw [hcast, abs_lt]
    constructor <;> nlinarith
  · rw [hcast, hmcast, abs_lt]
    constructor
    · have h1 : (9.62 : ℝ) < ((10 : ℝ) - 2.8) / Real.sqrt 0.56 := by
        rw [lt_div_iff₀ hspos]; nlinarith
      linarith
    · have h1 : ((10 : ℝ) - 2.8) / Real.sqrt 0.56 < 9.64 := by
        rw [div_lt_iff₀ hspos]; nlinarith
      linarith
  · rw [hm, hv]
    norm_num [zScoreGt, Z_SCORE_THRESHOLD, MIN_ERROR_COUNT]
  · rw [hm, hv]
    norm_num [zScoreGt]
  · rw [hm, hv]
    norm_num [detectionSeverity, zScoreGt]

/-! ## Supporting lemmas about the lease lock -/

theorem any_lockId_eq_false_of_findLock_none (s : Store) (h : findLock s = none) :
    s.locks.any (fun l => l.id == lockId) = false := by
  unfold findLock at h
  rw [List.find?_eq_none] at h
  apply Bool.eq_false_iff.mpr
  intro hx
  rw [List.any_eq_true] at hx
  obtain ⟨x, hmem, hpx⟩ := hx
  exact h x hmem hpx

theorem any_lockId_filter_false (s : Store) :
    ((s.locks.filter (fun l => !(l.id == lockId))).any (fun l => l.id == lockId)) =
      false := by
  apply Bool.eq_false_iff.mpr
  intro hx
  rw [List.any_eq_true] at hx
  obtain ⟨x, hmem, hpx⟩ := hx
  rw [List.mem_filter] at hmem
  rw [hpx] at hmem
  simp at hmem

/-- When no row for `lockId` is held, the conditional insert succeeds and
appends the fresh lease row. -/
theorem tryCreateLock_not_held (now : ℕ) (s : Store)
    (h : s.locks.any (fun l => l.id == lockId) = false) :
    tryCreateLock now s =
      some { s with locks := s.locks ++ [⟨lockId, now, now + 9000⟩] } := by
  simp [tryCreateLock, h]

/-- After `deleteLock`, the conditional insert always succeeds. -/
theorem tryCreateLock_deleteLock (now : ℕ) (s : Store) :
    tryCreateLock now (deleteLock s) =
      some { s with locks :=
        (s.locks.filter (fun l => !(l.id == lockId))) ++ [⟨lockId, now, now + 9000⟩] } :=
  tryCreateLock_not_held now (deleteLock s) (any_lockId_filter_false s)

theorem findLock_deleteLock (s : Store) : findLock (deleteLock s) = none := by
  unfold findLock deleteLock
  rw [List.find?_eq_none]
  intro x hx
  rw [List.mem_filter] at hx
  intro hpx
  rw [hpx] at hx
  simp at hx

/-! ## Claim theorems: lease lock -/

/-- **C4** Lease mutual exclusion under race: from a state with no lease row
for the lock id, whichever of two racing lock-creation attempts reaches the
store first succeeds, the other's conditional insert observes the uniqueness
conflict (`none`), and the loser's `acquireAndRun` treats it as not-held:
it performs no detection work and leaves the store untouched.  The store
serializes the two atomic conditional inserts, so the theorem quantifies
over both interleavings via `now1`/`now2` and an arbitrary protected body. -/
theorem lease_acquisition_mutual_exclusion (s : Store) (now1 now2 : ℕ)
    (detect : Store → Except Store Store) (h : findLock s = none) :
    ∃ s2, tryCreateLock now1 s = some s2 ∧
      tryCreateLock now2 s2 = none ∧
      acquireAndRun now2 detect s2 = (false, s2) := by
  have hany := any_lockId_eq_false_of_findLock_none s h
  refine ⟨{ s with locks := s.locks ++ [⟨lockId, now1, now1 + 9000⟩] },
    tryCreateLock_not_held now1 s hany, ?_, ?_⟩
  · simp [tryCreateLock]
  · unfold acquireAndRun
    rw [show tryCreateLock now2
        { s with locks := s.locks ++ [⟨lockId, now1, now1 + 9000⟩] } = none by
      simp [tryCreateLock]]

/-- **C5** Lease blocks until expiry: while a lease row with `expiry > now`
exists, `handleCron` returns with the store unchanged (no detection work, no
deletion or replacement of the row); once `expiry ≤ now` the row is
reclaimable and the protected body runs — never before. -/
theorem lease_blocks_until_expiry (now : ℕ) (detect : Store → Except Store Store)
    (s : Store) (l : CronLock) (h : findLock s = some l) :
    (now < l.expiry → handleCron now detect s = (false, s)) ∧
    (l.expiry ≤ now → (handleCron now detect s).1 = true) := by
  constructor
  · intro hlt
    unfold handleCron
    rw [h]
    dsimp only
    rw [if_pos hlt]
  · intro hle
    unfold handleCron
    rw [h]
    dsimp only
    rw [if_neg (not_lt.mpr hle)]
    unfold acquireAndRun
    rw [tryCreateLock_deleteLock]
    dsimp only
    cases detect { s with locks :=
        (s.locks.filter (fun l => !(l.id == lockId))) ++ [⟨lockId, now, now + 9000⟩] } with
    | ok s3 => rfl
    | error s3 => rfl

/-- **C6** Unconditional lease release: whenever `handleCron` reaches the
lock-creation step (no live lease blocks it) the lease row is created and
then deleted again before the tick ends, on every exit path of the protected
body — both when it returns normally and when it throws mid-detection. -/
theorem lease_released_on_every_exit (now : ℕ)
    (detect : Store → Except Store Store) (s : Store)
    (h : ∀ l, findLock s = some l → l.expiry ≤ now) :
    findLock (handleCron now detect s).2 = none := by
  unfold handleCron
  cases hfind : findLock s with
  | none =>
    dsimp only
    have hany := any_lockId_eq_false_of_findLock_none s hfind
    unfold acquireAndRun
    rw [tryCreateLock_not_held now s hany]
    dsimp only
    cases detect { s with locks := s.locks ++ [⟨lockId, now, now + 9000⟩] } with
    | ok s3 => exact findLock_deleteLock s3
    | error s3 => exact findLock_deleteLock s3
  | some l =>
    dsimp only
    rw [if_neg (not_lt.mpr (h l hfind))]
    unfold acquireAndRun
    rw [tryCreateLock_deleteLock]
    dsimp only
    cases detect { s with locks :=
        (s.locks.filter (fun l => !(l.id == lockId))) ++ [⟨lockId, now, now + 9000⟩] } with
    | ok s3 => exact findLock_deleteLock s3
    | error s3 => exact findLock_deleteLock s3

/-! ## Claim theorems: ingestion -/

/-- The well-formed record used as concrete evidence for the ingestion
contract (the payload of the repository's own `test-ingestion.js`). -/
def demoLogDto : CreateLogDto :=
  { service_id := "payment-service"
    level := LogLevel.ERROR
    message := "Payment gateway timeout"
    timestamp := 1700000000000
    metadata := some [("transaction_id", "tx_12345")] }

/-- The row `processLog demoLogDto` persists. -/
def demoPersistedLog : Log :=
  { id := 0
    service_id := "payment-service"
    level := LogLevel.ERROR
    message := "Payment gateway timeout"
    timestamp := 1700000000000
    metadata := [("transaction_id", "tx_12345")]
    incident_id := none }

/-- **C3** (evidence of divergence): for a well-formed record, `processLog`
does **not** append to an in-memory buffer and return before persistence —
it synchronously persists the row inside the call (the returned store
already contains it), and when the store insert fails the error is rethrown
to the producer, i.e. a store failure is producer-visible from `submit`. -/
theorem processLog_synchronous_and_error_propagating :
    processLog demoLogDto { logs := [], createFails := true } = Except.error () ∧
    processLog demoLogDto { logs := [], createFails := false } =
      Except.ok ({ logs := [demoPersistedLog], createFails := false },
        demoPersistedLog) := by
  constructor <;> rfl

/-! ## Concrete stores for the witnesses -/

/-- A store with no rows at all. -/
def emptyStore : Store := { logs := [], incidents := [], locks := [] }

/-- An `ERROR` row at the given timestamp, uncorrelated. -/
def errLog (i ts : ℕ) : Log :=
  { id := i, service_id := "payment-service", level := LogLevel.ERROR,
    message := "Payment failure", timestamp := ts, metadata := [],
    incident_id := none }

/-- Ten baseline minutes (buckets 23..32, one error each) plus a burst of six
errors in the current minute (bucket 33, inside the rolling 60-second
window of `WNOW`). -/
def witnessStore : Store :=
  { logs := [errLog 0 1380000, errLog 1 1440000, errLog 2 1500000,
             errLog 3 1560000, errLog 4 1620000, errLog 5 1680000,
             errLog 6 1740000, errLog 7 1800000, errLog 8 1860000,
             errLog 9 1920000,
             errLog 10 1980000, errLog 11 1980000, errLog 12 1980000,
             errLog 13 1980000, errLog 14 1980000, errLog 15 1980000]
    incidents := []
    locks := [] }

/-- The detection instant used with `witnessStore`. -/
def WNOW : ℕ := 2000000

/-- A store holding a live lease row (`expiry = 10000`). -/
def lockStore : Store :=
  { logs := [], incidents := [], locks := [⟨lockId, 1000, 10000⟩] }

/-- A store holding a stale lease row (`expiry = 1000`). -/
def staleStore : Store :=
  { logs := [], incidents := [], locks := [⟨lockId, 0, 1000⟩] }

/-! ## Evaluation of the detection tick on the witness store -/

theorem witness_baseline_eval :
    baselineMetrics WNOW witnessStore.logs =
      [(33, 6), (32, 1), (31, 1), (30, 1), (29, 1), (28, 1), (27, 1), (26, 1),
       (25, 1), (24, 1), (23, 1)] := by decide

theorem witness_current_eval : currentErrorCount WNOW witnessStore.logs = 6 := by
  decide

theorem witness_values_eval :
    baselineValues WNOW witnessStore.logs =
      [6, 1, 1, 1, 1, 1, 1, 1, 1, 1, 1] := by
  unfold baselineValues
  rw [witness_baseline_eval]
  norm_num

theorem witness_mean_eval :
    listMean (baselineValues WNOW witnessStore.logs) = 16 / 11 := by
  rw [witness_values_eval]
  norm_num [listMean]

theorem witness_var_eval :
    listVariance (baselineValues WNOW witnessStore.logs) = 250 / 121 := by
  rw [witness_values_eval]
  norm_num [listVariance, listMean]

theorem witness_decision_eval :
    (zScoreGt (listMean (baselineValues WNOW witnessStore.logs))
        (listVariance (baselineValues WNOW witnessStore.logs))
        ((currentErrorCount WNOW witnessStore.logs : ℕ) : ℚ) Z_SCORE_THRESHOLD
      && decide (MIN_ERROR_COUNT < currentErrorCount WNOW witnessStore.logs)) =
      true := by
  rw [witness_mean_eval, witness_var_eval, witness_current_eval]
  norm_num [zScoreGt, Z_SCORE_THRESHOLD, MIN_ERROR_COUNT]

theorem witness_fires_eval : detectionFires WNOW witnessStore = true := by
  unfold detectionFires
  rw [witness_mean_eval, witness_var_eval, witness_current_eval,
    witness_baseline_eval]
  norm_num [zScoreGt, Z_SCORE_THRESHOLD, MIN_ERROR_COUNT, MIN_BASELINE_BUCKETS]

/-- The core `Rat.floor` is the `Int.floor` of the rational. -/
theorem rat_floor_eq_intFloor (q : ℚ) : q.floor = ⌊q⌋ := by
  rw [Rat.floor_def]
  unfold Rat.floor
  split
  · next h => rw [h]; simp
  · rfl

theorem witness_zfixed_eval : zFixed2 (16 / 11 : ℚ) (250 / 121) 6 = "3.16" := by
  unfold zFixed2
  rw [if_neg (by norm_num : ¬ (250 / 121 : ℚ) = 0)]
  rw [if_neg (by norm_num : ¬ (6 : ℚ) < 16 / 11)]
  have h1 : floorTwiceHundredths ((6 : ℚ) - 16 / 11) (250 / 121) = 632 := by
    unfold floorTwiceHundredths
    have h2 : ((200 * ((6 : ℚ) - 16 / 11)) ^ 2 / (250 / 121)) = 400000 := by
      norm_num
    rw [h2, rat_floor_eq_intFloor]
    have h3 : ⌊(400000 : ℚ)⌋ = 400000 := by norm_num
    have h4 : (⌊(400000 : ℚ)⌋).toNat = 400000 := by rw [h3]; rfl
    rw [h4]
    have ha : 632 ≤ Nat.sqrt 400000 := Nat.le_sqrt.mpr (by norm_num)
    have hb : Nat.sqrt 400000 < 633 := Nat.sqrt_lt.mpr (by norm_num)
    omega
  rw [h1]
  decide

theorem witness_title_eval :
    incidentTitle (16 / 11 : ℚ) (250 / 121) 6 =
      "Anomaly Detected: Error Spike (Z-Score: 3.16, Count: 6)" := by
  unfold incidentTitle
  rw [show ((6 : ℕ) : ℚ) = 6 from by norm_num]
  rw [witness_zfixed_eval]
  rfl

/-- The incident the witness tick creates. -/
def witnessIncident : Incident :=
  { id := 0
    title := "Anomaly Detected: Error Spike (Z-Score: 3.16, Count: 6)"
    severity := Severity.HIGH
    status := IncidentStatus.OPEN }

theorem witness_incidents_eval :
    (runDetection WNOW witnessStore).incidents = [witnessIncident] := by
  unfold runDetection
  rw [if_neg (by decide :
    ¬ (baselineMetrics WNOW witnessStore.logs).length < MIN_BASELINE_BUCKETS)]
  rw [if_pos witness_decision_eval]
  have ht : incidentTitle (listMean (baselineValues WNOW witnessStore.logs))
      (listVariance (baselineValues WNOW witnessStore.logs))
      (currentErrorCount WNOW witnessStore.logs) =
      "Anomaly Detected: Error Spike (Z-Score: 3.16, Count: 6)" := by
    rw [witness_mean_eval, witness_var_eval, witness_current_eval,
      witness_title_eval]
  have hs : detectionSeverity (listMean (baselineValues WNOW witnessStore.logs))
      (listVariance (baselineValues WNOW witnessStore.logs))
      ((currentErrorCount WNOW witnessStore.logs : ℕ) : ℚ) = Severity.HIGH := by
    rw [witness_mean_eval, witness_var_eval, witness_current_eval]
    norm_num [detectionSeverity, zScoreGt]
  rw [ht, hs]
  rfl

/-! ## Witnesses -/

/-- Witness for C9 at the empty store: the baseline returns 0 buckets and the
tick leaves the store untouched. -/
theorem warmup_guard_no_writes_witness :
    (baselineMetrics 0 emptyStore.logs).length < MIN_BASELINE_BUCKETS ∧
      runDetection 0 emptyStore = emptyStore :=
  ⟨by decide, warmup_guard_no_writes 0 emptyStore (by decide)⟩

/-- Witness for C1 at the witness store (11 buckets, current count 6). -/
theorem runDetection_dual_threshold_witness :
    ¬ (baselineMetrics WNOW witnessStore.logs).length < MIN_BASELINE_BUCKETS ∧
      (((runDetection WNOW witnessStore).incidents.length =
          witnessStore.incidents.length + 1 ↔
        (zScoreGt (listMean (baselineValues WNOW witnessStore.logs))
            (listVariance (baselineValues WNOW witnessStore.logs))
            ((currentErrorCount WNOW witnessStore.logs : ℕ) : ℚ)
            Z_SCORE_THRESHOLD = true ∧
          MIN_ERROR_COUNT < currentErrorCount WNOW witnessStore.logs)) ∧
        (currentErrorCount WNOW witnessStore.logs = 1 →
          runDetection WNOW witnessStore = witnessStore)) :=
  ⟨by decide, runDetection_dual_threshold WNOW witnessStore (by decide)⟩

/-- Witness for C2 at the witness store, where the anomaly branch fires. -/
theorem runDetection_idempotent_witness :
    detectionFires WNOW witnessStore = true ∧
      (currentErrorCount WNOW (runDetection WNOW witnessStore).logs = 0 ∧
        runDetection WNOW (runDetection WNOW witnessStore) =
          runDetection WNOW witnessStore) :=
  ⟨witness_fires_eval,
    runDetection_idempotent_after_correlation WNOW witnessStore witness_fires_eval⟩

/-- Witness for C10: the incident created on the witness store. -/
theorem created_incident_invariant_witness :
    witnessIncident ∈ (runDetection WNOW witnessStore).incidents ∧
      witnessIncident ∉ witnessStore.incidents ∧
      (witnessIncident.status = IncidentStatus.OPEN ∧
        (witnessIncident.severity = Severity.HIGH ∨
          witnessIncident.severity = Severity.CRITICAL) ∧
        ∃ pre mid post : String,
          witnessIncident.title = pre ++
            zFixed2 (listMean (baselineValues WNOW witnessStore.logs))
              (listVariance (baselineValues WNOW witnessStore.logs))
              ((currentErrorCount WNOW witnessStore.logs : ℕ) : ℚ) ++ mid ++
            toString (currentErrorCount WNOW witnessStore.logs) ++ post) :=
  ⟨by rw [witness_incidents_eval]; exact List.mem_singleton.mpr rfl,
    by decide,
    created_incident_invariant WNOW witnessStore witnessIncident
      (by rw [witness_incidents_eval]; exact List.mem_singleton.mpr rfl)
      (by decide)⟩

/-- Witness for C7: both sentinel branches at concrete inputs. -/
theorem cold_start_sentinel_witness :
    sentinelZ 0 6 = 999 ∧ sentinelZ 3 2 = 0 :=
  ⟨(cold_start_sentinel.1 0 6).1 (by norm_num),
    (cold_start_sentinel.1 3 2).2 (by norm_num)⟩

/-- Witness for C4: two racing acquisitions over an empty lock table. -/
theorem lease_mutual_exclusion_witness :
    findLock emptyStore = none ∧
      ∃ s2, tryCreateLock 100 emptyStore = some s2 ∧
        tryCreateLock 200 s2 = none ∧
        acquireAndRun 200 (fun t => Except.ok t) s2 = (false, s2) :=
  ⟨by decide,
    lease_acquisition_mutual_exclusion emptyStore 100 200 (fun t => Except.ok t)
      (by decide)⟩

/-- Witness for C5: a live lease row (`expiry = 10000`) at tick `now = 5000`
blocks the cycle and leaves the store untouched. -/
theorem lease_blocks_until_expiry_witness :
    findLock lockStore = some ⟨lockId, 1000, 10000⟩ ∧
      handleCron 5000 (fun t => Except.ok t) lockStore = (false, lockStore) :=
  ⟨by decide,
    (lease_blocks_until_expiry 5000 (fun t => Except.ok t) lockStore
      ⟨lockId, 1000, 10000⟩ (by decide)).1 (by decide)⟩

/-- Witness for C6: a stale lease row is reclaimed and — even though the
protected body throws — the lease row is gone when the tick ends. -/
theorem lease_released_on_every_exit_witness :
    findLock staleStore = some ⟨lockId, 0, 1000⟩ ∧
      findLock (handleCron 5000 (fun t => Except.error t) staleStore).2 = none :=
  ⟨by decide,
    lease_released_on_every_exit 5000 (fun t => Except.error t) staleStore
      (by
        intro l hl
        have h2 : findLock staleStore = some ⟨lockId, 0, 1000⟩ := by decide
        rw [h2] at hl
        cases hl
        decide)⟩

end IncidentPlatform
